import Mathlib

/-!
Shallow embedding of the tsaybot repository (Python) in Lean 4, together with
theorems settling the frozen claims C1..C10 about its specification.

Modelling conventions:
* Python `int` is `Int` (arbitrary precision in Python, no overflow).
* Python `datetime.date` values are day numbers (days since 1970-01-01, which
  was a Thursday); `datetime.datetime` values in the America/New_York zone are
  modelled as local seconds (dayNumber * 86400 + secondsOfDay).  `timedelta.days`
  is floor division of the total seconds by 86400, i.e. `Int.fdiv`.
* Fallible Python code returns `Option`/`Except`; raised exceptions are error
  values.
* Discord objects (guilds, channels, roles) are identified by their integer ids;
  side effects (sending messages, creating events, file writes) are returned as
  explicit effect/trace lists.
-/

/-- Python (Monday = 0) weekday of a day number; day 0 = 1970-01-01 was a Thursday
(weekday 3).  Embeds `datetime.date.weekday()`. -/
def pyWeekday (day : Int) : Int := (day + 3) % 7

/-- English weekday names indexed by the Python weekday (Monday = 0).
Embeds the fixed locale table behind `strftime('%A')`. -/
def weekdayNames : List String :=
  ["Monday", "Tuesday", "Wednesday", "Thursday", "Friday", "Saturday", "Sunday"]

/-- `strftime('%A')` of a local day number. -/
def weekdayName (day : Int) : String := weekdayNames.getD (pyWeekday day).toNat ""

/-- Rendering of `strftime('%A, %B %e')`: weekday plus a rendering of the date.
The month-name/day-of-month text is abstracted to the raw day number; no theorem
below inspects this text. -/
def formatLongDate (day : Int) : String := weekdayName day ++ ", day " ++ toString day

/-- The characters matched by Python's `\s` class on `str` patterns (the set the
`regex`/`re` modules use for Unicode strings). -/
def isPySpace (c : Char) : Bool :=
  let n := c.toNat
  (9 ≤ n && n ≤ 13) || (28 ≤ n && n ≤ 31) || n = 32 || n = 133 || n = 160 ||
  n = 0x1680 || (0x2000 ≤ n && n ≤ 0x200a) || n = 0x2028 || n = 0x2029 ||
  n = 0x202f || n = 0x205f || n = 0x3000

/-- One alternative of `URL_PATTERN = regex.compile(r'^https://(boxd\.it|letterboxd\.com)[^\s]*$')`:
the literal prefix `https://` + `host`, then `[^\s]*`, then `$`.  Python's `$`
matches at the end of the string or just before one final newline, hence the two
disjuncts of `tailMatch`. -/
def tailMatch (l : List Char) : Bool :=
  l.all (fun c => !(isPySpace c)) ||
  (l.getLast? == some '\n' && l.dropLast.all (fun c => !(isPySpace c)))

/-- Attempt of one host alternative of `URL_PATTERN` against the whole string. -/
def url_check (host : String) (l : List Char) : Bool :=
  ("https://" ++ host).data.isPrefixOf l &&
    tailMatch (l.drop ("https://" ++ host).data.length)

/-- `scanner.is_url`: `bool(URL_PATTERN.match(s))` with
`URL_PATTERN = regex.compile(r'^https://(boxd\.it|letterboxd\.com)[^\s]*$')`. -/
def is_url (s : String) : Bool :=
  url_check "boxd.it" s.data || url_check "letterboxd.com" s.data

/-- Strips `pre` from the front of `l`, if it is a prefix. -/
def stripPrefixChars (pre l : List Char) : Option (List Char) :=
  if pre.isPrefixOf l then some (l.drop pre.length) else none

/-- One attempt of `BALLOT_URL_PATTERN = regex.compile(r'\[\.\]\((https://[^\)]*)\)')`
at the head of `l`: the literal `[.](https://`, then the greedy `[^\)]*` (all
characters up to the first `)`), then the literal `)`.  Returns the capture
group (`https://` + body) and the rest of the input after the match. -/
def ballotMatchAt (l : List Char) : Option (String × List Char) :=
  match stripPrefixChars ("[.](https://").data l with
  | none => none
  | some rest =>
    let body := rest.takeWhile (fun c => c ≠ ')')
    match rest.drop body.length with
    | ')' :: tail => some (String.mk (("https://").data ++ body), tail)
    | _ => none

/-- `findall` semantics: try a match at each position, left to right,
non-overlapping; on failure advance one character.  `fuel` bounds the recursion
by the input length (every step consumes at least one character), keeping the
definition structurally recursive and hence computable by `decide`/`rfl`. -/
def scanBallotFuel : Nat → List Char → List String
  | 0, _ => []
  | _, [] => []
  | fuel + 1, c :: rest =>
    match ballotMatchAt (c :: rest) with
    | some (url, tail) => url :: scanBallotFuel fuel tail
    | none => scanBallotFuel fuel rest

/-- `scanner.extract_urls_from_ballot`: `BALLOT_URL_PATTERN.findall(ballot)`. -/
def extract_urls_from_ballot (s : String) : List String :=
  scanBallotFuel s.data.length s.data

/-- `bot.Session`: one scheduled, not-yet-fully-announced club meeting
(dataclass with fields `id`, `title`, `reminder_count`). -/
structure Session where
  id : Int
  title : String
  reminder_count : Int
deriving DecidableEq, Repr

/-- JSON values as produced/consumed by `json.dump`/`json.load`.  Numbers are
restricted to integers: the store only ever holds ints and strings. -/
inductive Json where
  | null : Json
  | bool (b : Bool) : Json
  | num (n : Int) : Json
  | str (s : String) : Json
  | arr (elems : List Json) : Json
  | obj (fields : List (String × Json)) : Json

/-- `Session.todict`. -/
def Session.todict (s : Session) : Json :=
  Json.obj [("id", Json.num s.id), ("film_title", Json.str s.title),
            ("reminder_count", Json.num s.reminder_count)]

/-- `Session.fromdict`.  Python performs no type validation (`d['id']` may be
anything); a missing key raises `KeyError`.  The model accepts exactly the
shapes `todict` produces and maps every failure to `none`. -/
def Session.fromdict (j : Json) : Option Session :=
  match j with
  | Json.obj fields =>
    match fields.lookup "id", fields.lookup "film_title",
          fields.lookup "reminder_count" with
    | some (Json.num i), some (Json.str t), some (Json.num c) => some ⟨i, t, c⟩
    | _, _, _ => none
  | _ => none

/-- `Domain.write_sessions`: `json.dump([session.todict() for session in sessions if session], ...)`.
A dataclass instance is always truthy, so the `if session` filter keeps every
element.  The result is the JSON document written to the events file. -/
def write_sessions (sessions : List Session) : Json :=
  Json.arr (sessions.map Session.todict)

/-- `Domain.read_sessions`: a missing file yields `[]`; otherwise the stored
JSON document is decoded element-wise with `Session.fromdict`.  A document that
is not a list of well-shaped objects raises in Python; the model returns `none`. -/
def read_sessions (file : Option Json) : Option (List Session) :=
  match file with
  | none => some []
  | some (Json.arr elems) => elems.mapM Session.fromdict
  | some _ => none

/-- `bot.Domain`: the Discord bindings of one community.  Channels and the role
are modelled by their integer ids; the storage path is irrelevant to the claims
(the store itself is passed explicitly to the functions below). -/
structure Domain where
  name : String
  guildId : Int
  control_channel : Int
  vote_channel : Int
  announce_channel : Int
  event_channel : Int
  member_role : Int
deriving DecidableEq, Repr

/-- `discord.EventStatus` (the values the code distinguishes). -/
inductive EventStatus where
  | scheduled
  | active
  | completed
  | canceled
deriving DecidableEq, Repr

/-- A resolved `discord.ScheduledEvent` as far as the reminder pass reads it:
status, the event's channel id (`None` possible), and its start time
(`astimezone(NY_TZ)` applied, i.e. local New York seconds). -/
structure ScheduledEvent where
  id : Int
  status : EventStatus
  channel : Option Int
  start_time : Int
deriving DecidableEq, Repr

/-- Day-of reminder text from `Domain.announce_event`. -/
def day_of_message (title : String) : String :=
  "We are meeting tonight at 10:00 Eastern (7:00 Pacific) to discuss " ++ title ++ "."

/-- Two-day reminder text from `Domain.announce_event` (`strftime('%A')` of the
event start). -/
def two_day_message (weekday title : String) : String :=
  "We will be meeting on " ++ weekday ++ " to discuss " ++ title ++ "."

/-- `Domain.announce_event`: evaluates one Session against the current time.
`getEvent` embeds `self.guild.get_scheduled_event`, `now` is
`datetime.datetime.now(NY_TZ)` in local seconds.  Returns the surviving Session
(or `none` when dropped) and the announcement to emit (or `none`).
`timedelta.days` is floor division by 86400 (`Int.fdiv`). -/
def announce_event (dom : Domain) (getEvent : Int → Option ScheduledEvent)
    (now : Int) (session : Session) : Option Session × Option String :=
  match getEvent session.id with
  | none => (none, none)
  | some event =>
    if event.status ≠ EventStatus.scheduled then (none, none)
    else if event.channel = none ∨ event.channel ≠ some dom.event_channel then
      (none, none)
    else
      if (event.start_time - now).fdiv 86400 < 0 then (none, none)
      else if (event.start_time - now).fdiv 86400 = 0 then
        (none, some (day_of_message session.title))
      else if (event.start_time - now).fdiv 86400 ≤ 2 ∧ 2 ≤ session.reminder_count then
        (some { session with reminder_count := 1 },
         some (two_day_message (weekdayName (event.start_time.fdiv 86400)) session.title))
      else (some session, none)

/-- `Domain.announce_events`: evaluates every stored Session (the TaskGroup runs
the evaluations concurrently; `asyncio.gather` returns their results in task
creation order, i.e. store order), then keeps the surviving Sessions and the
emitted announcements, in that order. -/
def announce_events (dom : Domain) (getEvent : Int → Option ScheduledEvent)
    (now : Int) (store : List Session) : List Session × List String :=
  let results := store.map (announce_event dom getEvent now)
  (results.filterMap Prod.fst, results.filterMap Prod.snd)

/-- One observable operation of a reminder pass on the Session Store. -/
inductive PassOp where
  | read (content : List Session) : PassOp
  | evalSession (s : Session) (result : Option Session × Option String) : PassOp
  | write (content : List Session) : PassOp
deriving DecidableEq, Repr

/-- The store-operation trace of `Domain.announce_events`: one `read_sessions`,
then the per-Session evaluations (all of which complete before the TaskGroup
block exits), then the single `write_sessions` of the survivors. -/
def announce_events_trace (dom : Domain) (getEvent : Int → Option ScheduledEvent)
    (now : Int) (store : List Session) : List PassOp :=
  PassOp.read store ::
    (store.map (fun s => PassOp.evalSession s (announce_event dom getEvent now s)) ++
     [PassOp.write (announce_events dom getEvent now store).fst])

/-- The contents of the `write` operations of a trace. -/
def passWrites (ops : List PassOp) : List (List Session) :=
  ops.filterMap (fun op => match op with
    | PassOp.write c => some c
    | _ => none)

/-- The legacy single-domain bot (top-level `bot.py`), as far as its reminder
pass reads it. -/
structure LegacyBot where
  event_channel_id : Int
  announce_channel_id : Int
  member_role_id : Int
deriving DecidableEq, Repr

/-- Legacy `Bot.remind_event` (top-level `bot.py`): works on a CSV record
`(event_id, film_title, number)`; announcements are sent directly, modelled as
the returned message list.  Note: on a venue mismatch this version KEEPS the
record, and it has no `days < 0` branch. -/
def remind_event (bot : LegacyBot) (fetch : Int → Option ScheduledEvent)
    (now : Int) (eventId : Int) (filmTitle number : String) :
    Option (Int × String × String) × List String :=
  match fetch eventId with
  | none => (none, [])
  | some event =>
    if event.status ≠ EventStatus.scheduled then (none, [])
    else if event.channel = none ∨ event.channel ≠ some bot.event_channel_id then
      (some (eventId, filmTitle, number), [])
    else
      if (event.start_time - now).fdiv 86400 = 0 then
        (none, ["<@&" ++ toString bot.member_role_id ++ "> " ++ day_of_message filmTitle])
      else if number = "2" ∧ (event.start_time - now).fdiv 86400 ≤ 2 then
        (some (eventId, filmTitle, "1"),
         ["<@&" ++ toString bot.member_role_id ++ "> " ++
          two_day_message (weekdayName (event.start_time.fdiv 86400)) filmTitle])
      else (some (eventId, filmTitle, number), [])

/-- `bot.MovieInfo`: the scraped movie metadata.  Image bytes are abstracted to
their presence. -/
structure MovieInfo where
  title : String
  year : Option String
  url : String
  hasImage : Bool
deriving DecidableEq, Repr

/-- The scheduled event returned by a successful
`guild.create_scheduled_event` call: its id, public url and start time. -/
structure CreatedEvent where
  id : Int
  url : String
  start_time : Int
deriving DecidableEq, Repr

/-- The request `Domain.schedule_event` passes to `create_scheduled_event`:
the kwargs dict.  `startDate` is a day number, `startTimeOfDay` is seconds
within that day. -/
structure EventRequest where
  name : String
  startDate : Int
  startTimeOfDay : Int
  tz : String
  channel : Int
  hasImage : Bool
deriving DecidableEq, Repr

/-- An external side effect of `Domain.schedule_event`. -/
inductive Effect where
  | createEvent (req : EventRequest) : Effect
  | sendMessage (channel : Int) (msg : String) : Effect
  | writeStore (content : List Session) : Effect
deriving DecidableEq, Repr

/-- The event name `f'TSAY: {info.title}{(" (" + info.year + ")") if info.year else ""}'`.
`if info.year` is Python truthiness: both `None` and the empty string omit the
year segment. -/
def event_name (info : MovieInfo) : String :=
  "TSAY: " ++ info.title ++
    (match info.year with
     | some y => if y = "" then "" else " (" ++ y ++ ")"
     | none => "")

/-- The kwargs of the `create_scheduled_event` call in `Domain.schedule_event`:
the date formula `today + (14 - (today.weekday() - 2))` and the fixed start time
`datetime.time(22)` in `ZoneInfo('America/New_York')`. -/
def schedule_request (dom : Domain) (info : MovieInfo) (today : Int) : EventRequest :=
  { name := event_name info,
    startDate := today + (14 - (pyWeekday today - 2)),
    startTimeOfDay := 22 * 3600,
    tz := "America/New_York",
    channel := dom.event_channel,
    hasImage := info.hasImage }

/-- The invitation message sent after a successful event creation. -/
def invite_message (dom : Domain) (ev : CreatedEvent) (title : String) : String :=
  "<@&" ++ toString dom.member_role ++ "> You are all cordially invited to [a club meeting](" ++
    ev.url ++ ") on " ++ formatLongDate (ev.start_time.fdiv 86400) ++ " to discuss " ++
    title ++ ". As always, attendance is optional."

/-- `Domain.schedule_event`: attempts the event creation exactly once
(`createResult` is its outcome; any raised exception is `Except.error`).  On
failure it logs and returns (no further effects).  On success it sends the
invitation and appends `Session(event.id, info.title, 2)` to the store
(read-all, append, write-all).  Returns the effect list and the resulting store
contents. -/
def schedule_event (dom : Domain) (info : MovieInfo) (today : Int)
    (store : List Session) (createResult : Except String CreatedEvent) :
    List Effect × List Session :=
  let req := schedule_request dom info today
  match createResult with
  | Except.error _ => ([Effect.createEvent req], store)
  | Except.ok ev =>
    let newStore := store ++ [⟨ev.id, info.title, 2⟩]
    ([Effect.createEvent req,
      Effect.sendMessage dom.announce_channel (invite_message dom ev info.title),
      Effect.writeStore newStore],
     newStore)

/-- True on the `sendMessage` effects. -/
def isSendEffect (e : Effect) : Bool :=
  match e with
  | Effect.sendMessage _ _ => true
  | _ => false

/-- True on the `writeStore` effects. -/
def isWriteEffect (e : Effect) : Bool :=
  match e with
  | Effect.writeStore _ => true
  | _ => false

/-- True on the `createEvent` effects. -/
def isCreateEffect (e : Effect) : Bool :=
  match e with
  | Effect.createEvent _ => true
  | _ => false

/-- How `Bot.load_domains` fails.  `typeError` stands for the Python `TypeError`
raised when unpacking a non-iterable `int`; `runtimeError` is an explicit
`raise RuntimeError(msg)`. -/
inductive LoadError where
  | typeError : LoadError
  | runtimeError (msg : String) : LoadError
deriving DecidableEq, Repr

/-- Builds `domains_by_guild` (a `defaultdict(set)` keyed by guild id, filled in
configuration order).  Domain names are the unique keys of the configuration
dict, so the name sets are represented as lists without deduplication. -/
def insertByGuild (acc : List (Int × List String)) (g : Int) (n : String) :
    List (Int × List String) :=
  match acc with
  | [] => [(g, [n])]
  | (g', ns) :: rest =>
    if g' = g then (g', ns ++ [n]) :: rest else (g', ns) :: insertByGuild rest g n

/-- `domains_by_guild` of `Bot.load_domains`. -/
def domains_by_guild (ds : List (String × Int)) : List (Int × List String) :=
  ds.foldl (fun acc d => insertByGuild acc d.2 d.1) []

/-- The f-string argument of the duplicate-domain `RuntimeError`:
`'\n  -'.join(f'{guild}: {", ".join(guild_domains)}' for guild, guild_domains in domains_by_guild if len(domains_by_guild) > 1)`.
Iterating `domains_by_guild` directly yields the int keys, and unpacking an int
into `(guild, guild_domains)` raises `TypeError` on the first element — before
the `len(domains_by_guild) > 1` filter is even tested.  Only an empty dict
avoids the crash (the join is then over the empty generator). -/
def format_duplicate_report (byGuild : List (Int × List String)) :
    Except LoadError String :=
  match byGuild with
  | [] => Except.ok ""
  | _ :: _ => Except.error LoadError.typeError

/-- `Bot.load_domains`, with `load_domain`'s per-domain entity resolution
abstracted away (the input is the list of already-resolved `(name, guild id)`
pairs, in configuration order).  Checks `any(len(guild_domains) > 1 ...)` and,
if a guild owns more than one domain, builds the `RuntimeError` message — which
crashes as described at `format_duplicate_report`.  Otherwise produces the
`guild id -> domain` mapping (association list). -/
def load_domains (ds : List (String × Int)) :
    Except LoadError (List (Int × String)) :=
  let byGuild := domains_by_guild ds
  if byGuild.any (fun g => 1 < g.2.length) then
    match format_duplicate_report byGuild with
    | Except.error e => Except.error e
    | Except.ok report =>
      Except.error (LoadError.runtimeError
        ("Each Discord server may only have a single domain. The following servers have multiple domains:\n" ++ report))
  else
    Except.ok (ds.map (fun d => (d.2, d.1)))

/-- `discord.PollAnswer` as `BookSession.get_winner` reads it. -/
structure PollAnswer where
  text : String
  vote_count : Int
deriving DecidableEq, Repr

/-- `discord.Poll` as `BookSession.get_winner` reads it. -/
structure Poll where
  answers : List PollAnswer
deriving DecidableEq, Repr

/-- How `BookSession.get_winner` fails.  The first four are `VotingError`s (in
source order: no embedded URLs / no poll / count mismatch / tie); `pyExc`
stands for the Python exceptions `max` or `winners[0]` would raise on empty
input — shown unreachable below. -/
inductive WinnerFailure where
  | noEmbeddedURLs : WinnerFailure
  | noPoll : WinnerFailure
  | countMismatch : WinnerFailure
  | tie : WinnerFailure
  | pyExc : WinnerFailure
deriving DecidableEq, Repr

/-- Python's `max` on a list: `None` (a `ValueError`) on the empty list,
otherwise the fold of binary `max`. -/
def pyListMax (l : List Int) : Option Int :=
  match l with
  | [] => none
  | x :: xs => some (xs.foldl max x)

/-- `BookSession.get_winner` (`src/commands.py`; identical in the legacy
`bot.py`): extract the ballot URLs, validate, zip positionally against the poll
answers, and return the `(url, title)` of the unique answer attaining the
maximum vote count. -/
def get_winner (ballot_text : String) (poll : Option Poll) :
    Except WinnerFailure (String × String) :=
  let urls := extract_urls_from_ballot ballot_text
  if urls.isEmpty then Except.error WinnerFailure.noEmbeddedURLs
  else
    match poll with
    | none => Except.error WinnerFailure.noPoll
    | some p =>
      if urls.length ≠ p.answers.length then Except.error WinnerFailure.countMismatch
      else
        match pyListMax (p.answers.map (fun a => a.vote_count)) with
        | none => Except.error WinnerFailure.pyExc
        | some highest =>
          let winners := (urls.zip p.answers).filter
            (fun entry => entry.2.vote_count = highest)
          if 1 < winners.length then Except.error WinnerFailure.tie
          else
            match winners with
            | w :: _ => Except.ok (w.1, w.2.text)
            | [] => Except.error WinnerFailure.pyExc

instance {ε α : Type} [DecidableEq ε] [DecidableEq α] : DecidableEq (Except ε α) :=
  fun x y =>
    match x, y with
    | Except.error e, Except.error f =>
      if h : e = f then isTrue (by rw [h])
      else isFalse (fun hh => h (by injection hh))
    | Except.error _, Except.ok _ => isFalse (fun hh => Except.noConfusion hh)
    | Except.ok _, Except.error _ => isFalse (fun hh => Except.noConfusion hh)
    | Except.ok a, Except.ok b =>
      if h : a = b then isTrue (by rw [h])
      else isFalse (fun hh => h (by injection hh))

/-- A `discord.ScheduledEvent` as the update handler reads it (`before` and
`after` snapshots): id, channel id (`None` possible), start time. -/
structure EventUpdate where
  id : Int
  channel_id : Option Int
  start_time : Int
deriving DecidableEq, Repr

/-- The reschedule announcement of `Domain.handle_updated_event`
(`strftime('%A, %B %e')` of the new start). -/
def resched_message (dom : Domain) (title : String) (newStart : Int) : String :=
  "<@&" ++ toString dom.member_role ++ "> The upcoming session to discuss " ++ title ++
    " has been rescheduled to " ++ formatLongDate (newStart.fdiv 86400) ++ "."

/-- `{session.id: session for session in sessions}.get(eid)` followed by
`session.reminder_count = 2`: the dict comprehension keeps the LAST session
with a given id, and the in-place mutation updates exactly that object inside
the list.  This helper updates the first match; it is applied to the reversed
list below. -/
def set_reminder_2_first (l : List Session) (eid : Int) : List Session :=
  match l with
  | [] => []
  | s :: rest =>
    if s.id = eid then { s with reminder_count := 2 } :: rest
    else s :: set_reminder_2_first rest eid

/-- Updates the last session with id `eid` to `reminder_count = 2`. -/
def set_reminder_2_last (l : List Session) (eid : Int) : List Session :=
  (set_reminder_2_first l.reverse eid).reverse

/-- `Domain.handle_updated_event`: looks the updated event id up among the
stored Sessions (dict comprehension: last match wins); if absent, nothing
happens (in particular no store write).  Otherwise the reschedule announcement
is sent when the start time changed, the matched Session's `reminder_count` is
set to 2 in place, and the whole list is rewritten.  Returns the store writes
and the messages sent. -/
def handle_updated_event (dom : Domain) (before after : EventUpdate)
    (store : List Session) : List (List Session) × List String :=
  match (store.filter (fun s => s.id = after.id)).getLast? with
  | none => ([], [])
  | some s =>
    (if before.start_time ≠ after.start_time then
       ([set_reminder_2_last store after.id],
        [resched_message dom s.title after.start_time])
     else
       ([set_reminder_2_last store after.id], []))

/-- `Bot.on_scheduled_event_update`, after the domain has been resolved from
`after.guild`: ignore the update when the channel changed or when it is not the
domain's bound event channel; otherwise delegate to `handle_updated_event`. -/
def on_scheduled_event_update (dom : Domain) (before after : EventUpdate)
    (store : List Session) : List (List Session) × List String :=
  if before.channel_id ≠ after.channel_id then ([], [])
  else if after.channel_id ≠ some dom.event_channel then ([], [])
  else handle_updated_event dom before after store


/-! ### Concrete instances used by counterexamples and witnesses -/

/-- A concrete Domain: bound event (voice) channel 5, announce channel 12. -/
def cexDom : Domain := ⟨"films", 1, 10, 11, 12, 5, 77⟩

/-- A concrete legacy bot with the same channel bindings. -/
def cexLegacy : LegacyBot := ⟨5, 12, 77⟩

/-- A scheduled event sitting in channel 99 — not the Domain's bound channel 5. -/
def cexEvent : ScheduledEvent := ⟨101, EventStatus.scheduled, some 99, 86400 * 6⟩

/-- Event resolution returning `cexEvent` for id 101. -/
def cexEnv : Int → Option ScheduledEvent := fun i => if i = 101 then some cexEvent else none

/-- A stored Session for event 101. -/
def cexSession : Session := ⟨101, "Arrival", 2⟩

/-- Another venue-mismatched scheduled event (channel 98, five days out). -/
def cex4Event : ScheduledEvent := ⟨202, EventStatus.scheduled, some 98, 86400 * 5⟩

/-- Event resolution returning `cex4Event` for id 202. -/
def cex4Env : Int → Option ScheduledEvent := fun i => if i = 202 then some cex4Event else none

/-- A stored Session for event 202. -/
def cex4Session : Session := ⟨202, "Heat", 2⟩

/-- A correctly-bound event (channel 5) starting exactly two days out. -/
def wit4Event : ScheduledEvent := ⟨303, EventStatus.scheduled, some 5, 86400 * 2⟩

/-- Event resolution returning `wit4Event` for id 303. -/
def wit4Env : Int → Option ScheduledEvent := fun i => if i = 303 then some wit4Event else none

/-- A stored Session for event 303. -/
def wit4Session : Session := ⟨303, "Arrival", 2⟩

/-- An update snapshot for event 101 in the bound channel (start day 3). -/
def witUpd : EventUpdate := ⟨101, some 5, 86400 * 3⟩

/-! ### Theorems -/

/-- C2 (code bug in the source): loading two domain configurations that resolve
to the same guild does fail, but with a `TypeError` raised while formatting the
duplicate-domain message (the code iterates the `domains_by_guild` dict
directly, unpacking its `int` keys as `(guild, guild_domains)` pairs), not with
the intended `RuntimeError` naming the offending guild and both domain names. -/
theorem c2_duplicate_domain_type_error :
    load_domains [("alpha", 7), ("beta", 7)] = Except.error LoadError.typeError := by
  decide

/-- C5: `schedule_event` always requests creation first, with the target date
computed as `today + (14 - (today.weekday() - 2))`; for every possible value of
`today` that date falls on a Wednesday (Python weekday index 2), and the start
time is fixed at 22:00 (79200 seconds) in the America/New_York zone. -/
theorem c5_schedule_event_wednesday (dom : Domain) (info : MovieInfo) (today : Int)
    (store : List Session) (createResult : Except String CreatedEvent) :
    (schedule_event dom info today store createResult).1.head?
      = some (Effect.createEvent (schedule_request dom info today)) ∧
    (schedule_request dom info today).startDate = today + (14 - (pyWeekday today - 2)) ∧
    pyWeekday ((schedule_request dom info today).startDate) = 2 ∧
    (schedule_request dom info today).startTimeOfDay = 22 * 3600 ∧
    (schedule_request dom info today).tz = "America/New_York" := by
  refine ⟨?_, rfl, ?_, rfl, rfl⟩
  · cases createResult <;> rfl
  · show pyWeekday (today + (14 - (pyWeekday today - 2))) = 2
    unfold pyWeekday
    omega

/-- Decoding inverts encoding on a single Session record. -/
theorem fromdict_todict (s : Session) : Session.fromdict (Session.todict s) = some s := rfl

/-- C9: a `write_sessions` followed by `read_sessions` returns a Session list
equal to the original in length, order and all fields; hence writing back what
was read is a no-op on the logical contents seen by later reads. -/
theorem c9_store_round_trip (l : List Session) :
    read_sessions (some (write_sessions l)) = some l ∧
    ∀ file : Option Json, read_sessions file = some l →
      read_sessions (some (write_sessions l)) = read_sessions file := by
  have main : read_sessions (some (write_sessions l)) = some l := by
    show (l.map Session.todict).mapM Session.fromdict = some l
    induction l with
    | nil => rfl
    | cons s rest ih =>
      simp only [List.map_cons, List.mapM_cons, fromdict_todict, ih]
      rfl
  exact ⟨main, fun file h => by rw [main, h]⟩

/-- Witness for C9 at a concrete store file. -/
theorem c9_store_round_trip_witness :
    read_sessions (some (write_sessions [⟨1, "Arrival", 2⟩]))
      = read_sessions (some (Json.arr [Session.todict ⟨1, "Arrival", 2⟩])) :=
  (c9_store_round_trip [⟨1, "Arrival", 2⟩]).2
    (some (Json.arr [Session.todict ⟨1, "Arrival", 2⟩])) (by decide)

/-- C7: in one reminder pass the Session Store is written exactly once, the
write is the final operation of the pass trace (after every per-Session
evaluation), and the written contents are exactly the surviving (not dropped)
Sessions, in evaluation order. -/
theorem c7_single_write_after_pass (dom : Domain)
    (getEvent : Int → Option ScheduledEvent) (now : Int) (store : List Session) :
    passWrites (announce_events_trace dom getEvent now store)
      = [store.filterMap (fun s => (announce_event dom getEvent now s).fst)] ∧
    (announce_events_trace dom getEvent now store).getLast?
      = some (PassOp.write
          (store.filterMap (fun s => (announce_event dom getEvent now s).fst))) ∧
    (announce_events dom getEvent now store).fst
      = store.filterMap (fun s => (announce_event dom getEvent now s).fst) := by
  have hfst : (announce_events dom getEvent now store).fst
      = store.filterMap (fun s => (announce_event dom getEvent now s).fst) := by
    show (store.map (announce_event dom getEvent now)).filterMap Prod.fst
        = store.filterMap (fun s => (announce_event dom getEvent now s).fst)
    rw [List.filterMap_map]
    rfl
  refine ⟨?_, ?_, hfst⟩
  · show ((PassOp.read store ::
        (store.map (fun s => PassOp.evalSession s (announce_event dom getEvent now s)) ++
         [PassOp.write (announce_events dom getEvent now store).fst])).filterMap _) = _
    rw [List.filterMap_cons, List.filterMap_append, List.filterMap_map]
    simp only [hfst]
    have : (store.filterMap
        ((fun op => match op with
          | PassOp.write c => some c
          | _ => none) ∘ (fun s => PassOp.evalSession s (announce_event dom getEvent now s))))
        = [] := by
      rw [List.filterMap_eq_nil_iff]
      intro a _
      rfl
    rw [this]
    rfl
  · show (PassOp.read store ::
        (store.map (fun s => PassOp.evalSession s (announce_event dom getEvent now s)) ++
         [PassOp.write (announce_events dom getEvent now store).fst])).getLast? = _
    rw [← List.cons_append, List.getLast?_concat, hfst]

/-- C8: if event creation fails, `schedule_event` performs exactly one creation
attempt, sends no message, writes nothing to the Session Store and leaves the
store contents unchanged; only on success does the store gain the new Session
`{id, title, reminderCount = 2}` (by a single write of the appended list). -/
theorem c8_creation_failure_aborts (dom : Domain) (info : MovieInfo) (today : Int)
    (store : List Session) :
    (∀ err : String,
      (schedule_event dom info today store (Except.error err)).1.filter isSendEffect = [] ∧
      (schedule_event dom info today store (Except.error err)).1.filter isWriteEffect = [] ∧
      ((schedule_event dom info today store (Except.error err)).1.filter isCreateEffect).length
        = 1 ∧
      (schedule_event dom info today store (Except.error err)).2 = store) ∧
    (∀ ev : CreatedEvent,
      (schedule_event dom info today store (Except.ok ev)).2
        = store ++ [⟨ev.id, info.title, 2⟩] ∧
      (schedule_event dom info today store (Except.ok ev)).1.filter isWriteEffect
        = [Effect.writeStore (store ++ [⟨ev.id, info.title, 2⟩])] ∧
      ((schedule_event dom info today store (Except.ok ev)).1.filter isCreateEffect).length
        = 1) := by
  exact ⟨fun err => ⟨rfl, rfl, rfl, rfl⟩, fun ev => ⟨rfl, rfl, rfl⟩⟩

/-- C1 counterexample: a stored Session whose event resolves as scheduled but
sits in channel 99 while the Domain's bound event channel is 5.  The claim says
the pass keeps the Session unchanged; `Domain.announce_event` in fact returns
`(None, None)`, i.e. drops it (with no announcement), and the pass-level store
rewrite omits it. -/
theorem c1_counterexample :
    cexEnv cexSession.id = some cexEvent ∧
    cexEvent.status = EventStatus.scheduled ∧
    cexEvent.channel = some 99 ∧
    cexDom.event_channel = 5 ∧
    announce_event cexDom cexEnv 0 cexSession = (none, none) ∧
    (announce_events cexDom cexEnv 0 [cexSession]).fst = [] := by
  decide

/-- C1 (amended): in the current `Domain.announce_event`, a Session whose event
resolves with status scheduled but whose channel is missing or differs from the
Domain's bound event channel is DROPPED from the store with no announcement
(the singleton pass removes it); only the legacy `Bot.remind_event` kept such a
record unchanged. -/
theorem c1_venue_mismatch_drops (dom : Domain) (getEvent : Int → Option ScheduledEvent)
    (now : Int) (s : Session) (ev : ScheduledEvent)
    (bot : LegacyBot) (fetch : Int → Option ScheduledEvent) (eid : Int)
    (title number : String) (ev2 : ScheduledEvent)
    (h1 : getEvent s.id = some ev) (h2 : ev.status = EventStatus.scheduled)
    (h3 : ev.channel = none ∨ ev.channel ≠ some dom.event_channel)
    (g1 : fetch eid = some ev2) (g2 : ev2.status = EventStatus.scheduled)
    (g3 : ev2.channel = none ∨ ev2.channel ≠ some bot.event_channel_id) :
    announce_event dom getEvent now s = (none, none) ∧
    (announce_events dom getEvent now [s]).fst = [] ∧
    remind_event bot fetch now eid title number = (some (eid, title, number), []) := by
  have hdrop : announce_event dom getEvent now s = (none, none) := by
    simp only [announce_event, h1]
    rw [if_neg (by simp [h2]), if_pos h3]
  refine ⟨hdrop, ?_, ?_⟩
  · show ([s].map (announce_event dom getEvent now)).filterMap Prod.fst = []
    simp [hdrop]
  · simp only [remind_event, g1]
    rw [if_neg (by simp [g2]), if_pos g3]

/-- Witness for C1's amended theorem at the concrete venue-mismatch instance. -/
theorem c1_venue_mismatch_drops_witness :
    announce_event cexDom cexEnv 0 cexSession = (none, none) ∧
    (announce_events cexDom cexEnv 0 [cexSession]).fst = [] ∧
    remind_event cexLegacy cexEnv 0 101 "Arrival" "2" = (some (101, "Arrival", "2"), []) :=
  c1_venue_mismatch_drops cexDom cexEnv 0 cexSession cexEvent cexLegacy cexEnv 101
    "Arrival" "2" cexEvent (by decide) (by decide) (by decide) (by decide) (by decide)
    (by decide)

/-- C4 counterexample: a Session whose event is scheduled, five days out, but in
channel 98 rather than the Domain's bound channel 5.  None of the claim's
enumerated cases applies, so the claim's catch-all predicts "kept unchanged, no
announcement" `(some s, none)`; the code instead drops the Session. -/
theorem c4_counterexample :
    cex4Env cex4Session.id = some cex4Event ∧
    cex4Event.status = EventStatus.scheduled ∧
    cex4Event.channel ≠ some cexDom.event_channel ∧
    (0 : Int) < (cex4Event.start_time - 0).fdiv 86400 ∧
    ¬((cex4Event.start_time - 0).fdiv 86400 ≤ 2) ∧
    announce_event cexDom cex4Env 0 cex4Session = (none, none) ∧
    announce_event cexDom cex4Env 0 cex4Session ≠ (some cex4Session, none) := by
  decide

/-- C4 (amended): the complete transition function of one reminder-pass
evaluation: event not found, status not scheduled, or channel missing/not the
Domain's bound event channel → Session dropped, no announcement; otherwise with
`days = (start - now).fdiv 86400`: `days < 0` → dropped silently; `days = 0` →
day-of announcement and dropped; `0 < days ≤ 2` and `reminderCount ≥ 2` →
two-day announcement and `reminderCount` becomes 1 (kept); in every remaining
case the Session is kept unchanged with no announcement. -/
theorem c4_announce_event_transitions (dom : Domain)
    (getEvent : Int → Option ScheduledEvent) (now : Int) (s : Session) :
    (getEvent s.id = none → announce_event dom getEvent now s = (none, none)) ∧
    ∀ ev, getEvent s.id = some ev →
      (ev.status ≠ EventStatus.scheduled →
          announce_event dom getEvent now s = (none, none)) ∧
      (ev.status = EventStatus.scheduled →
        ((ev.channel = none ∨ ev.channel ≠ some dom.event_channel) →
            announce_event dom getEvent now s = (none, none)) ∧
        (ev.channel = some dom.event_channel →
          ((ev.start_time - now).fdiv 86400 < 0 →
              announce_event dom getEvent now s = (none, none)) ∧
          ((ev.start_time - now).fdiv 86400 = 0 →
              announce_event dom getEvent now s
                = (none, some (day_of_message s.title))) ∧
          (0 < (ev.start_time - now).fdiv 86400 →
           (ev.start_time - now).fdiv 86400 ≤ 2 → 2 ≤ s.reminder_count →
              announce_event dom getEvent now s
                = (some { s with reminder_count := 1 },
                   some (two_day_message (weekdayName (ev.start_time.fdiv 86400))
                          s.title))) ∧
          ((2 < (ev.start_time - now).fdiv 86400 ∨
            (0 < (ev.start_time - now).fdiv 86400 ∧ s.reminder_count < 2)) →
              announce_event dom getEvent now s = (some s, none)))) := by
  constructor
  · intro h
    simp only [announce_event, h]
  intro ev hev
  constructor
  · intro hst
    simp only [announce_event, hev]
    rw [if_pos hst]
  intro hsch
  constructor
  · intro hch
    simp only [announce_event, hev]
    rw [if_neg (by simp [hsch]), if_pos hch]
  intro hch
  have hbase : announce_event dom getEvent now s =
      (if (ev.start_time - now).fdiv 86400 < 0 then (none, none)
       else if (ev.start_time - now).fdiv 86400 = 0 then
         (none, some (day_of_message s.title))
       else if (ev.start_time - now).fdiv 86400 ≤ 2 ∧ 2 ≤ s.reminder_count then
         (some { s with reminder_count := 1 },
          some (two_day_message (weekdayName (ev.start_time.fdiv 86400)) s.title))
       else (some s, none)) := by
    simp only [announce_event, hev]
    rw [if_neg (by simp [hsch]), if_neg (by simp [hch])]
  refine ⟨?_, ?_, ?_, ?_⟩
  · intro hd
    rw [hbase, if_pos hd]
  · intro hd
    rw [hbase, if_neg (by omega), if_pos hd]
  · intro hd1 hd2 hrc
    rw [hbase, if_neg (by omega), if_neg (by omega), if_pos ⟨hd2, hrc⟩]
  · intro hother
    rw [hbase, if_neg (by omega), if_neg (by omega), if_neg (by omega)]

/-- Witness for C4's amended theorem: the two-day branch at a concrete instance
(event two days out, bound channel, `reminderCount = 2`). -/
theorem c4_announce_event_transitions_witness :
    announce_event cexDom wit4Env 0 wit4Session
      = (some ⟨303, "Arrival", 1⟩, some (two_day_message "Saturday" "Arrival")) := by
  have h := (((c4_announce_event_transitions cexDom wit4Env 0 wit4Session).2
      wit4Event (by decide)).2 (by decide)).2 (by decide)
  have h2 := h.2.2.1 (by decide) (by decide) (by decide)
  rw [h2]
  decide

/-- `set_reminder_2_first` walks past a block with no matching id. -/
theorem set_first_append_no_match (l₁ l₂ : List Session) (eid : Int)
    (h : ∀ t ∈ l₁, t.id ≠ eid) :
    set_reminder_2_first (l₁ ++ l₂) eid = l₁ ++ set_reminder_2_first l₂ eid := by
  induction l₁ with
  | nil => rfl
  | cons a l ih =>
    have ha : a.id ≠ eid := h a (List.mem_cons_self a l)
    simp only [List.cons_append, set_reminder_2_first, if_neg ha, List.append_eq]
    rw [ih (fun t ht => h t (List.mem_cons_of_mem a ht))]

/-- Updating the last matching Session, decomposed: when `s` is the last
element with id `eid`, only `s` changes. -/
theorem set_last_decompose (pre post : List Session) (s : Session) (eid : Int)
    (hs : s.id = eid) (hpost : ∀ t ∈ post, t.id ≠ eid) :
    set_reminder_2_last (pre ++ s :: post) eid
      = pre ++ { s with reminder_count := 2 } :: post := by
  unfold set_reminder_2_last
  rw [List.reverse_append, List.reverse_cons, List.append_assoc]
  rw [set_first_append_no_match post.reverse _ eid
      (fun t ht => hpost t (List.mem_reverse.mp ht))]
  show (post.reverse ++ set_reminder_2_first (s :: pre.reverse) eid).reverse = _
  simp only [set_reminder_2_first, if_pos hs]
  rw [List.reverse_append, List.reverse_cons, List.reverse_reverse, List.reverse_reverse]
  simp

/-- C10: for an update whose channel is unchanged and equal to the Domain's
bound event channel, if a Session with the event's id is stored (here: `s`, the
last such entry), the handler rewrites the store exactly once with that
Session's `reminderCount` reset to 2 — even when the start time did not change —
and sends the reschedule announcement exactly when the start time changed. -/
theorem c10_update_resets_reminder (dom : Domain) (before after : EventUpdate)
    (pre post : List Session) (s : Session)
    (hch : before.channel_id = after.channel_id)
    (hven : after.channel_id = some dom.event_channel)
    (hid : s.id = after.id)
    (hpost : ∀ t ∈ post, t.id ≠ after.id) :
    on_scheduled_event_update dom before after (pre ++ s :: post)
      = ([pre ++ { s with reminder_count := 2 } :: post],
         if before.start_time ≠ after.start_time then
           [resched_message dom s.title after.start_time]
         else []) := by
  unfold on_scheduled_event_update
  rw [if_neg (by simp [hch]), if_neg (by simp [hven])]
  have hset := set_last_decompose pre post s after.id hid hpost
  have hfilter : ((pre ++ s :: post).filter (fun x => x.id = after.id)).getLast?
      = some s := by
    rw [List.filter_append, List.filter_cons_of_pos (by simpa using hid)]
    have hpf : post.filter (fun x => decide (x.id = after.id)) = [] := by
      rw [List.filter_eq_nil_iff]
      intro t ht
      simpa using hpost t ht
    rw [hpf, List.getLast?_concat]
  simp only [handle_updated_event, hfilter]
  rw [hset]
  by_cases hc : before.start_time ≠ after.start_time
  · rw [if_pos hc, if_pos hc]
  · rw [if_neg hc, if_neg hc]

/-- Witness for C10 at a concrete instance where the start time is unchanged:
the store is still rewritten with `reminderCount` reset to 2, and no
announcement is sent. -/
theorem c10_update_resets_reminder_witness :
    on_scheduled_event_update cexDom witUpd witUpd [⟨101, "Arrival", 1⟩]
      = ([[⟨101, "Arrival", 2⟩]], []) := by
  have h := c10_update_resets_reminder cexDom witUpd witUpd [] [] ⟨101, "Arrival", 1⟩
    rfl (by decide) (by decide) (by simp)
  rw [show ([] : List Session) ++ (⟨101, "Arrival", 1⟩ : Session) :: [] = [⟨101, "Arrival", 1⟩] from rfl] at h
  rw [h]
  simp

/-- The tail of the URL pattern (`[^\s]*$`) matches exactly the strings of
non-whitespace characters optionally followed by one final newline. -/
theorem tailMatch_iff (r : List Char) :
    tailMatch r = true ↔
      ∃ core t, r = core ++ t ∧ core.all (fun c => !(isPySpace c)) = true ∧
        (t = [] ∨ t = ['\n']) := by
  unfold tailMatch
  rw [Bool.or_eq_true]
  constructor
  · intro h
    rcases h with h | h
    · exact ⟨r, [], by simp, h, Or.inl rfl⟩
    · rw [Bool.and_eq_true] at h
      obtain ⟨h1, h2⟩ := h
      rw [beq_iff_eq] at h1
      refine ⟨r.dropLast, ['\n'], ?_, h2, Or.inr rfl⟩
      exact (List.dropLast_append_getLast? '\n' h1).symm
  · rintro ⟨core, t, hr, hall, ht | ht⟩
    · subst ht
      subst hr
      left
      simpa using hall
    · subst ht
      subst hr
      right
      rw [Bool.and_eq_true]
      constructor
      · rw [beq_iff_eq]
        exact List.getLast?_concat core
      · rw [List.dropLast_concat]
        exact hall

/-- One host alternative of the URL pattern matches exactly the strings with
the literal `https://host` prefix whose remainder matches the tail pattern. -/
theorem url_check_iff (host : String) (l : List Char) :
    url_check host l = true ↔
      ∃ r, l = ("https://" ++ host).data ++ r ∧ tailMatch r = true := by
  unfold url_check
  rw [Bool.and_eq_true]
  constructor
  · rintro ⟨h1, h2⟩
    rw [List.isPrefixOf_iff_prefix] at h1
    obtain ⟨r, hr⟩ := h1
    refine ⟨r, hr.symm, ?_⟩
    rw [← hr, List.drop_left] at h2
    exact h2
  · rintro ⟨r, hr, htail⟩
    subst hr
    constructor
    · rw [List.isPrefixOf_iff_prefix]
      exact ⟨r, rfl⟩
    · rw [List.drop_left]
      exact htail

/-- C3 counterexample: the claim states `is_url` returns false for every other
absolute URL, in particular any URL with embedded whitespace or a different
host.  But `is_url` accepts a URL ending in a newline character (whitespace:
Python's `$` matches before one final newline), and accepts
`https://boxd.it.evil.com/x`, whose host (`boxd.it.evil.com`) is not in the
allow-list but merely extends `boxd.it` — the pattern never anchors the host
before the path. -/
theorem c3_counterexample :
    is_url "https://boxd.it/film/arrival\n" = true ∧
    ("https://boxd.it/film/arrival\n").data.any (fun c => isPySpace c) = true ∧
    is_url "https://boxd.it.evil.com/x" = true := by
  decide

/-- C3 (amended): `is_url s` is true exactly when `s` is `https://`, then one of
the two allowed host literals, then a whitespace-free remainder, optionally
followed by one final newline.  Hence http-scheme URLs, URLs whose authority
does not begin with an allowed host literal, and URLs with any other whitespace
are rejected, while a single trailing newline — or a longer host that merely
begins with an allowed host literal — is accepted. -/
theorem c3_is_url_characterization (s : String) :
    is_url s = true ↔
      ∃ host core t, (host = "boxd.it" ∨ host = "letterboxd.com") ∧
        s.data = ("https://" ++ host).data ++ (core ++ t) ∧
        core.all (fun c => !(isPySpace c)) = true ∧
        (t = [] ∨ t = ['\n']) := by
  unfold is_url
  rw [Bool.or_eq_true]
  constructor
  · intro h
    rcases h with h | h
    all_goals rw [url_check_iff] at h
    all_goals obtain ⟨r, hr, htail⟩ := h
    all_goals rw [tailMatch_iff] at htail
    all_goals obtain ⟨core, t, hrt, hall, ht⟩ := htail
    · exact ⟨"boxd.it", core, t, Or.inl rfl, by rw [hr, hrt], hall, ht⟩
    · exact ⟨"letterboxd.com", core, t, Or.inr rfl, by rw [hr, hrt], hall, ht⟩
  · rintro ⟨host, core, t, hhost | hhost, hdata, hall, ht⟩
    · left
      rw [url_check_iff]
      subst hhost
      exact ⟨core ++ t, hdata, (tailMatch_iff _).mpr ⟨core, t, rfl, hall, ht⟩⟩
    · right
      rw [url_check_iff]
      subst hhost
      exact ⟨core ++ t, hdata, (tailMatch_iff _).mpr ⟨core, t, rfl, hall, ht⟩⟩

/-- Witness for C3's characterization at a concrete allowed URL. -/
theorem c3_is_url_characterization_witness :
    is_url "https://letterboxd.com/film/dune/" = true :=
  (c3_is_url_characterization "https://letterboxd.com/film/dune/").mpr
    ⟨"letterboxd.com", ("/film/dune/").data, [], Or.inr rfl, by decide, by decide,
     Or.inl rfl⟩

/-- The fold of binary `max` yields the seed or an element of the list. -/
theorem foldl_max_mem (xs : List Int) (x : Int) :
    xs.foldl max x = x ∨ xs.foldl max x ∈ xs := by
  induction xs generalizing x with
  | nil => exact Or.inl rfl
  | cons y ys ih =>
    rw [List.foldl_cons]
    rcases ih (max x y) with h | h
    · rcases max_choice x y with hm | hm
      · left
        rw [h, hm]
      · right
        rw [h, hm]
        exact List.mem_cons_self y ys
    · right
      exact List.mem_cons_of_mem y h

/-- Python's `max` over a nonempty list returns one of its elements. -/
theorem pyListMax_mem (l : List Int) (m : Int) (h : pyListMax l = some m) : m ∈ l := by
  cases l with
  | nil => simp [pyListMax] at h
  | cons x xs =>
    simp only [pyListMax, Option.some.injEq] at h
    subst h
    rcases foldl_max_mem xs x with h | h
    · rw [h]
      exact List.mem_cons_self x xs
    · exact List.mem_cons_of_mem x h

/-- Filtering a positional zip on the second component has the same length as
filtering the second list (when the lists have equal length). -/
theorem zip_filter_snd_length {α β : Type} (q : β → Bool) :
    ∀ (us : List α) (as' : List β), us.length = as'.length →
      ((us.zip as').filter (fun e => q e.2)).length = (as'.filter q).length := by
  intro us
  induction us with
  | nil =>
    intro as' h
    cases as' with
    | nil => rfl
    | cons a t => simp at h
  | cons u us ih =>
    intro as' h
    cases as' with
    | nil => simp at h
    | cons a t =>
      have hlen : us.length = t.length := by simpa using h
      by_cases hq : q a = true
      · rw [List.zip_cons_cons, List.filter_cons_of_pos (by simpa using hq),
            List.filter_cons_of_pos hq]
        simp [ih t hlen]
      · rw [List.zip_cons_cons,
            List.filter_cons_of_neg (by simpa using hq),
            List.filter_cons_of_neg (by simpa using hq)]
        exact ih t hlen

/-- When exactly one element of `as'` passes the filter and it sits at index
`i`, filtering the zip leaves exactly the `i`-th pair. -/
theorem zip_filter_unique {α β : Type} (q : β → Bool) :
    ∀ (us : List α) (as' : List β) (i : Nat) (hu : i < us.length) (ha : i < as'.length),
      us.length = as'.length →
      q (as'.get ⟨i, ha⟩) = true →
      (as'.filter q).length = 1 →
      (us.zip as').filter (fun e => q e.2) = [(us.get ⟨i, hu⟩, as'.get ⟨i, ha⟩)] := by
  intro us
  induction us with
  | nil =>
    intro as' i hu
    simp at hu
  | cons u us ih =>
    intro as' i hu ha hlen hq huniq
    cases as' with
    | nil => simp at hlen
    | cons a t =>
      have hlen' : us.length = t.length := by simpa using hlen
      by_cases hqa : q a = true
      · have htail : t.filter q = [] := by
          rw [List.filter_cons_of_pos hqa] at huniq
          have : (t.filter q).length = 0 := by simpa using huniq
          exact List.length_eq_zero.mp this
        cases i with
        | zero =>
          rw [List.zip_cons_cons, List.filter_cons_of_pos (by simpa using hqa)]
          have hzlen : ((us.zip t).filter (fun e => q e.2)).length = (t.filter q).length :=
            zip_filter_snd_length q us t hlen'
          rw [htail] at hzlen
          have hznil : (us.zip t).filter (fun e => q e.2) = [] :=
            List.length_eq_zero.mp (by simpa using hzlen)
          rw [hznil]
          rfl
        | succ j =>
          exfalso
          have hj : j < t.length := by simpa using ha
          have hmem : t.get ⟨j, hj⟩ ∈ t := List.get_mem t j hj
          have hq' : q (t.get ⟨j, hj⟩) = true := by simpa using hq
          have : t.get ⟨j, hj⟩ ∈ t.filter q := List.mem_filter.mpr ⟨hmem, hq'⟩
          rw [htail] at this
          exact absurd this (List.not_mem_nil _)
      · cases i with
        | zero => exact absurd (by simpa using hq) hqa
        | succ j =>
          have hju : j < us.length := by simpa using hu
          have hja : j < t.length := by simpa using ha
          rw [List.zip_cons_cons, List.filter_cons_of_neg (by simpa using hqa)]
          have huniq' : (t.filter q).length = 1 := by
            rw [List.filter_cons_of_neg hqa] at huniq
            exact huniq
          have := ih t j hju hja hlen' (by simpa using hq) huniq'
          rw [this]
          simp

/-- C6: `get_winner` raises exactly the claimed `VotingError`s in source order —
no embedded ballot URLs, then no poll, then URL/answer count mismatch, then a
tie of two or more answers at the maximum vote count — and otherwise returns
the `(url, title)` pair positionally zipped with the unique answer attaining
the maximum; the Python exceptions on empty `max`/`winners[0]` (`pyExc`) are
unreachable. -/
theorem c6_get_winner_spec (ballot : String) :
    (∀ poll, extract_urls_from_ballot ballot = [] →
        get_winner ballot poll = Except.error WinnerFailure.noEmbeddedURLs) ∧
    (extract_urls_from_ballot ballot ≠ [] →
        get_winner ballot none = Except.error WinnerFailure.noPoll) ∧
    (∀ p : Poll, extract_urls_from_ballot ballot ≠ [] →
      ((extract_urls_from_ballot ballot).length ≠ p.answers.length →
          get_winner ballot (some p) = Except.error WinnerFailure.countMismatch) ∧
      ((extract_urls_from_ballot ballot).length = p.answers.length →
        ∀ m, pyListMax (p.answers.map (fun a => a.vote_count)) = some m →
          (2 ≤ (p.answers.filter (fun a => a.vote_count = m)).length →
              get_winner ballot (some p) = Except.error WinnerFailure.tie) ∧
          ((p.answers.filter (fun a => a.vote_count = m)).length = 1 →
            ∀ i (hi : i < p.answers.length)
              (hu : i < (extract_urls_from_ballot ballot).length),
              (p.answers.get ⟨i, hi⟩).vote_count = m →
              get_winner ballot (some p)
                = Except.ok ((extract_urls_from_ballot ballot).get ⟨i, hu⟩,
                             (p.answers.get ⟨i, hi⟩).text)))) ∧
    (∀ poll, get_winner ballot poll ≠ Except.error WinnerFailure.pyExc) := by
  refine ⟨?_, ?_, ?_, ?_⟩
  · intro poll h
    simp [get_winner, h]
  · intro h
    obtain ⟨u, us, hu⟩ := List.exists_cons_of_ne_nil h
    simp [get_winner, hu]
  · intro p hne
    have hie : (extract_urls_from_ballot ballot).isEmpty = false := by
      cases hx : extract_urls_from_ballot ballot with
      | nil => exact absurd hx hne
      | cons a l => rfl
    constructor
    · intro hlen
      simp only [get_winner, hie, Bool.false_eq_true, if_false]
      rw [if_pos hlen]
    · intro hlen m hm
      have hred : get_winner ballot (some p)
          = (if 1 < (((extract_urls_from_ballot ballot).zip p.answers).filter
                (fun entry => entry.2.vote_count = m)).length then
               Except.error WinnerFailure.tie
             else
               match ((extract_urls_from_ballot ballot).zip p.answers).filter
                   (fun entry => entry.2.vote_count = m) with
               | w :: _ => Except.ok (w.1, w.2.text)
               | [] => Except.error WinnerFailure.pyExc) := by
        simp only [get_winner, hie, Bool.false_eq_true, if_false]
        rw [if_neg (fun hc => hc hlen), hm]
      have hwlen : (((extract_urls_from_ballot ballot).zip p.answers).filter
            (fun entry => entry.2.vote_count = m)).length
          = (p.answers.filter (fun a => a.vote_count = m)).length :=
        zip_filter_snd_length (fun a => decide (a.vote_count = m))
          (extract_urls_from_ballot ballot) p.answers hlen
      constructor
      · intro htie
        rw [hred, if_pos (by omega)]
      · intro huniq i hi hu hvote
        have hwin := zip_filter_unique (fun a => decide (a.vote_count = m))
          (extract_urls_from_ballot ballot) p.answers i hu hi hlen
          (by simpa using hvote) huniq
        rw [hred, hwin]
        rfl
  · intro poll heq
    cases hx : extract_urls_from_ballot ballot with
    | nil => simp [get_winner, hx] at heq
    | cons u us =>
      cases poll with
      | none => simp [get_winner, hx] at heq
      | some p =>
        have hie : (extract_urls_from_ballot ballot).isEmpty = false := by
          rw [hx]
          rfl
        by_cases hlen : (extract_urls_from_ballot ballot).length = p.answers.length
        · cases hA : p.answers with
          | nil =>
            rw [hA, hx] at hlen
            simp at hlen
          | cons a t =>
            have hmax : pyListMax (p.answers.map (fun x => x.vote_count))
                = some ((t.map (fun x => x.vote_count)).foldl max a.vote_count) := by
              rw [hA]
              rfl
            have hred : get_winner ballot (some p)
                = (if 1 < (((extract_urls_from_ballot ballot).zip p.answers).filter
                      (fun entry => entry.2.vote_count
                        = (t.map (fun x => x.vote_count)).foldl max a.vote_count)).length then
                     Except.error WinnerFailure.tie
                   else
                     match ((extract_urls_from_ballot ballot).zip p.answers).filter
                         (fun entry => entry.2.vote_count
                           = (t.map (fun x => x.vote_count)).foldl max a.vote_count) with
                     | w :: _ => Except.ok (w.1, w.2.text)
                     | [] => Except.error WinnerFailure.pyExc) := by
              simp only [get_winner, hie, Bool.false_eq_true, if_false]
              rw [if_neg (fun hc => hc hlen), hmax]
            have hmem := pyListMax_mem _ _ hmax
            obtain ⟨ax, haxmem, haxv⟩ := List.mem_map.mp hmem
            have hfne : ax ∈ p.answers.filter
                (fun x => decide (x.vote_count
                  = (t.map (fun y => y.vote_count)).foldl max a.vote_count)) :=
              List.mem_filter.mpr ⟨haxmem, by simpa using haxv⟩
            have hflen : 0 < (p.answers.filter
                (fun x => decide (x.vote_count
                  = (t.map (fun y => y.vote_count)).foldl max a.vote_count))).length :=
              List.length_pos.mpr (fun hnil => by
                rw [hnil] at hfne
                exact absurd hfne (List.not_mem_nil _))
            have hwlen := zip_filter_snd_length
              (fun x => decide (x.vote_count
                = (t.map (fun y => y.vote_count)).foldl max a.vote_count))
              (extract_urls_from_ballot ballot) p.answers hlen
            rw [hred] at heq
            by_cases h1 : 1 < (((extract_urls_from_ballot ballot).zip p.answers).filter
                (fun entry => entry.2.vote_count
                  = (t.map (fun x => x.vote_count)).foldl max a.vote_count)).length
            · rw [if_pos h1] at heq
              simp at heq
            · rw [if_neg h1] at heq
              cases hw : ((extract_urls_from_ballot ballot).zip p.answers).filter
                  (fun entry => entry.2.vote_count
                    = (t.map (fun x => x.vote_count)).foldl max a.vote_count) with
              | nil =>
                rw [hw] at hwlen
                simp at hwlen
                omega
              | cons w ws =>
                rw [hw] at heq
                simp at heq
        · simp only [get_winner, hie, Bool.false_eq_true, if_false] at heq
          rw [if_pos (fun hc => hlen hc)] at heq
          simp at heq

/-- Witness for C6: with vote counts `[5,5,2]` the tie error is raised; with
`[5,2,2]` the pair of the first answer is returned. -/
theorem c6_get_winner_spec_witness :
    get_winner "[.](https://a)[.](https://b)[.](https://c)"
      (some ⟨[⟨"A", 5⟩, ⟨"B", 5⟩, ⟨"C", 2⟩]⟩) = Except.error WinnerFailure.tie ∧
    get_winner "[.](https://a)[.](https://b)[.](https://c)"
      (some ⟨[⟨"A", 5⟩, ⟨"B", 2⟩, ⟨"C", 2⟩]⟩) = Except.ok ("https://a", "A") := by
  constructor
  · exact (((c6_get_winner_spec "[.](https://a)[.](https://b)[.](https://c)").2.2.1
      ⟨[⟨"A", 5⟩, ⟨"B", 5⟩, ⟨"C", 2⟩]⟩ (by decide)).2 (by decide) 5 (by decide)).1
      (by decide)
  · exact (((c6_get_winner_spec "[.](https://a)[.](https://b)[.](https://c)").2.2.1
      ⟨[⟨"A", 5⟩, ⟨"B", 2⟩, ⟨"C", 2⟩]⟩ (by decide)).2 (by decide) 5 (by decide)).2
      (by decide) 0 (by decide) (by decide) (by decide)
